import Mathlib

/-!
Shallow embedding of the data-access core of the career-platform repository
(`src/data_manager.py`): the occupation catalog (`WorkNetAPI._get_sample_job_data`,
`WorkNetAPI._get_sample_jobs_by_keyword`), the search / filter engine
(`WorkNetAPI.search_jobs`), and the aggregation layer (`CareerDataManager.compare_jobs`,
`CareerDataManager.get_career_path_data`, `CareerDataManager.get_industry_jobs`).

Python strings are modelled as Lean `String`; the Python string operations used by the
code (`str.split(sep)`, `str.strip()`, `str.lower()`, substring `in`) are implemented
below over `List Char` with Python semantics, so that all definitions reduce in the
kernel.  Python dicts keyed by strings are modelled as association lists in source
order; `dict.get(k, default)` with a falsy default is modelled as `Option`.

Note on the catalog literal: in `data_manager.py` the `sample_jobs` dict literal is
closed by the brace on line 293, directly after the `"MDA001"` entry.  The `"BIO001"`
and `"ECO001"` record literals on lines 294-347 stand *outside* the dict literal (as
written they are a Python syntax error).  The embedding therefore gives the catalog
exactly the seven records the dict literal contains; the stranded records are the
subject of claim C4.
-/

/-- Python `str.split(sep)` on the underlying character list: splits at every
occurrence of `sep`, keeping empty pieces; the empty string yields `[[]]`. -/
def splitChars (sep : Char) : List Char → List (List Char)
  | [] => [[]]
  | c :: rest =>
    let r := splitChars sep rest
    if c = sep then [] :: r
    else
      match r with
      | [] => [[c]]
      | h :: t => (c :: h) :: t

/-- Python `s.split(sep)` for a one-character separator. -/
def pySplit (sep : Char) (s : String) : List String :=
  (splitChars sep s.data).map String.mk

/-- Python `s.lower()` (our data is ASCII letters plus Hangul, which has no case). -/
def pyLower (s : String) : String := String.mk (s.data.map Char.toLower)

/-- Python `s.strip()`: remove leading and trailing whitespace. -/
def pyStrip (s : String) : String :=
  String.mk (((s.data.dropWhile Char.isWhitespace).reverse.dropWhile Char.isWhitespace).reverse)

/-- Python substring test `needle in hay` on character lists. -/
def substrList (needle : List Char) : List Char → Bool
  | [] => needle.isEmpty
  | c :: rest => needle.isPrefixOf (c :: rest) || substrList needle rest

/-- Python `needle in hay` on strings. -/
def pyContains (hay needle : String) : Bool := substrList needle.data hay.data

/-- Occupation detail record: the fixed shape of every value of the `sample_jobs`
dict in `WorkNetAPI._get_sample_job_data`. -/
structure Job where
  job_code : String
  job_name : String
  field : String
  description : String
  main_tasks : List String
  required_education : String
  required_skills : List String
  certifications : List String
  salary_range : String
  outlook : String
  growth_rate : String
  employment_rate : String
  related_majors : List String
  high_school_subjects : List String
  career_path : String
deriving DecidableEq, Repr

/-- Occupation summary entry, the shape of the `all_jobs` listing values in
`WorkNetAPI._get_sample_jobs_by_keyword`. -/
structure JobSummary where
  code : String
  name : String
  growth : String
  field : String
deriving DecidableEq, Repr

/-- Catalog record "AI001" (data_manager.py lines 104-130). -/
def job_AI001 : Job :=
  { job_code := "AI001"
    job_name := "AI 엔지니어"
    field := "AI/빅데이터"
    description := "인공지능 알고리즘을 개발하고 AI 시스템을 구축하는 전문가"
    main_tasks := ["머신러닝 모델 개발 및 최적화", "딥러닝 알고리즘 연구 및 구현",
      "AI 시스템 설계 및 구축", "데이터 전처리 및 분석"]
    required_education := "학사 이상 (컴퓨터공학, 인공지능, 데이터사이언스 등)"
    required_skills := ["Python, TensorFlow, PyTorch", "머신러닝/딥러닝 이론",
      "수학(선형대수, 확률통계)", "데이터 분석 능력"]
    certifications := ["정보처리기사", "빅데이터분석기사", "AI 관련 자격증"]
    salary_range := "4,000만원 ~ 8,000만원"
    outlook := "매우 높음"
    growth_rate := "25%"
    employment_rate := "95%"
    related_majors := ["컴퓨터공학", "인공지능학", "데이터사이언스", "통계학", "수학"]
    high_school_subjects := ["수학", "정보", "과학(물리)", "영어"]
    career_path := "대학 전공 → 석사(선택) → AI 엔지니어 → 시니어 AI 엔지니어 → AI 연구원/리더" }

/-- Catalog record "BIZ001" (data_manager.py lines 131-157). -/
def job_BIZ001 : Job :=
  { job_code := "BIZ001"
    job_name := "경영 컨설턴트"
    field := "경영/컨설팅"
    description := "기업의 경영 문제를 분석하고 개선 방안을 제시하는 전문가"
    main_tasks := ["기업 현황 분석 및 진단", "경영 전략 수립 및 제안",
      "프로젝트 관리 및 실행", "성과 측정 및 개선"]
    required_education := "학사 이상 (경영학, 경제학 등)"
    required_skills := ["전략적 사고력", "데이터 분석 능력", "프레젠테이션 스킬", "커뮤니케이션 능력"]
    certifications := ["경영지도사", "CPA", "CFA"]
    salary_range := "3,500만원 ~ 8,000만원"
    outlook := "높음"
    growth_rate := "15%"
    employment_rate := "85%"
    related_majors := ["경영학", "경제학", "산업공학", "통계학"]
    high_school_subjects := ["수학", "사회", "영어", "경제"]
    career_path := "대학 전공 → 컨설팅 펌 입사 → 주니어 컨설턴트 → 시니어 컨설턴트 → 매니저 → 파트너" }

/-- Catalog record "PSY001" (data_manager.py lines 158-184). -/
def job_PSY001 : Job :=
  { job_code := "PSY001"
    job_name := "임상심리사"
    field := "심리/상담"
    description := "심리적 문제를 진단하고 치료하는 전문가"
    main_tasks := ["심리 평가 및 진단", "심리 치료 및 상담", "치료 계획 수립", "사례 관리 및 기록"]
    required_education := "석사 이상 (심리학)"
    required_skills := ["심리학 이론 지식", "상담 기법", "공감 능력", "윤리적 판단력"]
    certifications := ["임상심리사 1급", "임상심리사 2급"]
    salary_range := "3,000만원 ~ 6,000만원"
    outlook := "높음"
    growth_rate := "12%"
    employment_rate := "80%"
    related_majors := ["심리학", "상담학"]
    high_school_subjects := ["사회", "생활과 윤리", "영어"]
    career_path := "심리학 학사 → 석사 필수 → 임상심리사 자격증 → 병원/센터 근무 → 수련 → 전문가" }

/-- Catalog record "ART001" (data_manager.py lines 185-211). -/
def job_ART001 : Job :=
  { job_code := "ART001"
    job_name := "UX/UI 디자이너"
    field := "예술/디자인"
    description := "사용자 경험과 인터페이스를 디자인하는 전문가"
    main_tasks := ["사용자 조사 및 분석", "와이어프레임 및 프로토타입 제작",
      "UI 디자인 및 가이드 작성", "사용성 테스트 진행"]
    required_education := "학사 이상 (디자인, 시각디자인 등)"
    required_skills := ["Figma, Sketch, Adobe XD", "사용자 중심 디자인",
      "프로토타이핑", "디자인 시스템 구축"]
    certifications := ["시각디자인기사", "컴퓨터그래픽스운용기능사"]
    salary_range := "3,500만원 ~ 7,000만원"
    outlook := "매우 높음"
    growth_rate := "20%"
    employment_rate := "90%"
    related_majors := ["시각디자인", "산업디자인", "디지털미디어디자인"]
    high_school_subjects := ["미술", "정보", "영어"]
    career_path := "대학 전공 → 주니어 디자이너 → UX/UI 디자이너 → 시니어 디자이너 → 디자인 리드" }

/-- Catalog record "SPT002" (data_manager.py lines 212-238). -/
def job_SPT002 : Job :=
  { job_code := "SPT002"
    job_name := "스포츠 데이터 분석가"
    field := "체육/스포츠"
    description := "스포츠 경기 및 선수 데이터를 분석하여 전략을 제시하는 전문가"
    main_tasks := ["경기 데이터 수집 및 분석", "선수 퍼포먼스 분석", "전략 수립 지원",
      "데이터 시각화 및 리포팅"]
    required_education := "학사 이상 (체육학, 통계학, 데이터사이언스 등)"
    required_skills := ["Python, R", "통계 분석", "스포츠 지식", "데이터 시각화"]
    certifications := ["빅데이터분석기사", "생활스포츠지도사"]
    salary_range := "3,000만원 ~ 6,000만원"
    outlook := "높음"
    growth_rate := "18%"
    employment_rate := "75%"
    related_majors := ["체육학", "스포츠과학", "통계학", "데이터사이언스"]
    high_school_subjects := ["수학", "체육", "정보"]
    career_path := "대학 전공 → 데이터 분석 실무 → 스포츠 팀 분석가 → 수석 분석가" }

/-- Catalog record "EDU003" (data_manager.py lines 239-265). -/
def job_EDU003 : Job :=
  { job_code := "EDU003"
    job_name := "에듀테크 전문가"
    field := "교육"
    description := "교육과 기술을 융합한 학습 솔루션을 개발하는 전문가"
    main_tasks := ["교육용 앱/플랫폼 기획", "학습 콘텐츠 설계", "AI 기반 학습 시스템 개발",
      "교육 효과 분석"]
    required_education := "학사 이상 (교육학, 컴퓨터공학 등)"
    required_skills := ["교육학 이론", "프로그래밍 기초", "UX/UI 디자인", "프로젝트 관리"]
    certifications := ["교사 자격증", "정보처리기사"]
    salary_range := "3,500만원 ~ 7,000만원"
    outlook := "매우 높음"
    growth_rate := "22%"
    employment_rate := "85%"
    related_majors := ["교육학", "교육공학", "컴퓨터공학"]
    high_school_subjects := ["수학", "정보", "사회", "영어"]
    career_path := "대학 전공 → 에듀테크 기업 입사 → 콘텐츠 개발자 → 프로덕트 매니저" }

/-- Catalog record "MDA001" (data_manager.py lines 266-292), the last entry inside
the `sample_jobs` dict literal. -/
def job_MDA001 : Job :=
  { job_code := "MDA001"
    job_name := "유튜버/크리에이터"
    field := "미디어/콘텐츠"
    description := "영상 콘텐츠를 기획, 제작, 유통하는 1인 미디어 전문가"
    main_tasks := ["콘텐츠 기획 및 제작", "영상 촬영 및 편집", "채널 운영 및 마케팅",
      "시청자 소통 및 관리"]
    required_education := "학력 무관 (관련 학과 우대)"
    required_skills := ["영상 편집 (프리미어, 파이널컷)", "기획력 및 창의성",
      "커뮤니케이션 능력", "SNS 마케팅"]
    certifications := ["방송편집기사(선택)"]
    salary_range := "변동 큼 (월 100만원 ~ 수천만원)"
    outlook := "높음"
    growth_rate := "15%"
    employment_rate := "자영업"
    related_majors := ["방송영상학", "미디어커뮤니케이션", "영화학"]
    high_school_subjects := ["국어", "영어", "미술"]
    career_path := "콘텐츠 제작 시작 → 구독자 확보 → 수익화 → 전문 크리에이터 → MCN 계약/개인 브랜드" }

/-- The `sample_jobs` dict of `WorkNetAPI._get_sample_job_data`, as an association
list in source order.  The dict literal closes on line 293 after `"MDA001"`, so the
`"BIO001"` and `"ECO001"` literals on lines 294-347 are not part of it. -/
def sample_jobs : List (String × Job) :=
  [("AI001", job_AI001), ("BIZ001", job_BIZ001), ("PSY001", job_PSY001),
   ("ART001", job_ART001), ("SPT002", job_SPT002), ("EDU003", job_EDU003),
   ("MDA001", job_MDA001)]

/-- Model of `WorkNetAPI._get_sample_job_data`: `sample_jobs.get(job_code, {})`,
with the empty (falsy) dict modelled as `none`. -/
def get_sample_job_data (job_code : String) : Option Job :=
  (sample_jobs.find? (fun p => p.1 == job_code)).map (fun p => p.2)

/-- Listing for field "AI/빅데이터" (data_manager.py lines 356-365). -/
def jobs_ai : List JobSummary :=
  [{ code := "AI001", name := "AI 엔지니어", growth := "매우 높음", field := "AI/빅데이터" },
   { code := "AI002", name := "데이터 사이언티스트", growth := "매우 높음", field := "AI/빅데이터" },
   { code := "AI003", name := "머신러닝 엔지니어", growth := "매우 높음", field := "AI/빅데이터" },
   { code := "AI004", name := "AI 윤리 전문가", growth := "높음", field := "AI/빅데이터" },
   { code := "AI005", name := "자연어처리 전문가", growth := "높음", field := "AI/빅데이터" },
   { code := "AI006", name := "컴퓨터비전 엔지니어", growth := "높음", field := "AI/빅데이터" },
   { code := "AI007", name := "빅데이터 아키텍트", growth := "높음", field := "AI/빅데이터" },
   { code := "AI008", name := "데이터 엔지니어", growth := "높음", field := "AI/빅데이터" }]

/-- Listing for field "바이오헬스" (lines 366-373). -/
def jobs_bio : List JobSummary :=
  [{ code := "BIO001", name := "바이오인포매틱스 연구원", growth := "높음", field := "바이오헬스" },
   { code := "BIO002", name := "유전체 분석가", growth := "높음", field := "바이오헬스" },
   { code := "BIO003", name := "신약 개발 연구원", growth := "중상", field := "바이오헬스" },
   { code := "BIO004", name := "바이오 데이터 분석가", growth := "높음", field := "바이오헬스" },
   { code := "BIO005", name := "의료 AI 전문가", growth := "매우 높음", field := "바이오헬스" },
   { code := "BIO006", name := "재생의학 연구원", growth := "중상", field := "바이오헬스" }]

/-- Listing for field "친환경에너지" (lines 374-380). -/
def jobs_eco : List JobSummary :=
  [{ code := "ECO001", name := "신재생에너지 엔지니어", growth := "매우 높음", field := "친환경에너지" },
   { code := "ECO002", name := "탄소배출권 거래 전문가", growth := "높음", field := "친환경에너지" },
   { code := "ECO003", name := "수소에너지 연구원", growth := "매우 높음", field := "친환경에너지" },
   { code := "ECO004", name := "ESG 컨설턴트", growth := "높음", field := "친환경에너지" },
   { code := "ECO005", name := "친환경 건축 설계사", growth := "중상", field := "친환경에너지" }]

/-- Listing for field "메타버스/XR" (lines 381-387). -/
def jobs_meta : List JobSummary :=
  [{ code := "META001", name := "메타버스 플랫폼 개발자", growth := "매우 높음", field := "메타버스/XR" },
   { code := "META002", name := "XR 콘텐츠 디자이너", growth := "높음", field := "메타버스/XR" },
   { code := "META003", name := "3D 모델러", growth := "높음", field := "메타버스/XR" },
   { code := "META004", name := "가상세계 건축가", growth := "중상", field := "메타버스/XR" },
   { code := "META005", name := "NFT 아트 디렉터", growth := "중상", field := "메타버스/XR" }]

/-- Listing for field "자율주행/모빌리티" (lines 388-393). -/
def jobs_auto : List JobSummary :=
  [{ code := "AUTO001", name := "자율주행 엔지니어", growth := "매우 높음", field := "자율주행/모빌리티" },
   { code := "AUTO002", name := "모빌리티 데이터 분석가", growth := "높음", field := "자율주행/모빌리티" },
   { code := "AUTO003", name := "전기차 배터리 연구원", growth := "매우 높음", field := "자율주행/모빌리티" },
   { code := "AUTO004", name := "커넥티드카 보안 전문가", growth := "높음", field := "자율주행/모빌리티" }]

/-- Listing for field "로봇공학" (lines 394-399). -/
def jobs_rob : List JobSummary :=
  [{ code := "ROB001", name := "로봇 엔지니어", growth := "높음", field := "로봇공학" },
   { code := "ROB002", name := "협동로봇 전문가", growth := "중상", field := "로봇공학" },
   { code := "ROB003", name := "로봇 비전 개발자", growth := "높음", field := "로봇공학" },
   { code := "ROB004", name := "의료로봇 연구원", growth := "중상", field := "로봇공학" }]

/-- Listing for field "우주항공" (lines 400-404). -/
def jobs_space : List JobSummary :=
  [{ code := "SPACE001", name := "위성 시스템 엔지니어", growth := "중상", field := "우주항공" },
   { code := "SPACE002", name := "우주탐사 연구원", growth := "중", field := "우주항공" },
   { code := "SPACE003", name := "항공우주 데이터 분석가", growth := "중상", field := "우주항공" }]

/-- Listing for field "스마트시티" (lines 405-410). -/
def jobs_city : List JobSummary :=
  [{ code := "CITY001", name := "스마트시티 플래너", growth := "중상", field := "스마트시티" },
   { code := "CITY002", name := "IoT 솔루션 아키텍트", growth := "높음", field := "스마트시티" },
   { code := "CITY003", name := "도시데이터 분석가", growth := "중상", field := "스마트시티" },
   { code := "CITY004", name := "스마트빌딩 엔지니어", growth := "중", field := "스마트시티" }]

/-- Listing for field "경영/컨설팅" (lines 411-420). -/
def jobs_biz : List JobSummary :=
  [{ code := "BIZ001", name := "경영 컨설턴트", growth := "높음", field := "경영/컨설팅" },
   { code := "BIZ002", name := "전략 기획자", growth := "중상", field := "경영/컨설팅" },
   { code := "BIZ003", name := "마케팅 매니저", growth := "중상", field := "경영/컨설팅" },
   { code := "BIZ004", name := "브랜드 매니저", growth := "중", field := "경영/컨설팅" },
   { code := "BIZ005", name := "HR 전문가", growth := "중", field := "경영/컨설팅" },
   { code := "BIZ006", name := "재무 분석가", growth := "중상", field := "경영/컨설팅" },
   { code := "BIZ007", name := "회계사", growth := "중", field := "경영/컨설팅" },
   { code := "BIZ008", name := "세무사", growth := "중", field := "경영/컨설팅" }]

/-- Listing for field "심리/상담" (lines 421-428). -/
def jobs_psy : List JobSummary :=
  [{ code := "PSY001", name := "임상심리사", growth := "높음", field := "심리/상담" },
   { code := "PSY002", name := "상담심리사", growth := "높음", field := "심리/상담" },
   { code := "PSY003", name := "산업 및 조직심리사", growth := "중상", field := "심리/상담" },
   { code := "PSY004", name := "교육심리사", growth := "중", field := "심리/상담" },
   { code := "PSY005", name := "진로상담사", growth := "중상", field := "심리/상담" },
   { code := "PSY006", name := "놀이치료사", growth := "중", field := "심리/상담" }]

/-- Listing for field "예술/디자인" (lines 429-437). -/
def jobs_art : List JobSummary :=
  [{ code := "ART001", name := "UX/UI 디자이너", growth := "매우 높음", field := "예술/디자인" },
   { code := "ART002", name := "그래픽 디자이너", growth := "중", field := "예술/디자인" },
   { code := "ART003", name := "영상 디자이너", growth := "높음", field := "예술/디자인" },
   { code := "ART004", name := "애니메이터", growth := "중상", field := "예술/디자인" },
   { code := "ART005", name := "게임 아트 디렉터", growth := "높음", field := "예술/디자인" },
   { code := "ART006", name := "웹툰 작가", growth := "높음", field := "예술/디자인" },
   { code := "ART007", name := "일러스트레이터", growth := "중", field := "예술/디자인" }]

/-- Listing for field "체육/스포츠" (lines 438-444). -/
def jobs_spt : List JobSummary :=
  [{ code := "SPT001", name := "스포츠 마케터", growth := "중상", field := "체육/스포츠" },
   { code := "SPT002", name := "스포츠 데이터 분석가", growth := "높음", field := "체육/스포츠" },
   { code := "SPT003", name := "운동처방사", growth := "중", field := "체육/스포츠" },
   { code := "SPT004", name := "퍼스널 트레이너", growth := "중", field := "체육/스포츠" },
   { code := "SPT005", name := "스포츠 에이전트", growth := "중", field := "체육/스포츠" }]

/-- Listing for field "교육" (lines 445-451). -/
def jobs_edu : List JobSummary :=
  [{ code := "EDU001", name := "교사", growth := "중", field := "교육" },
   { code := "EDU002", name := "교육 컨텐츠 개발자", growth := "높음", field := "교육" },
   { code := "EDU003", name := "에듀테크 전문가", growth := "매우 높음", field := "교육" },
   { code := "EDU004", name := "특수교사", growth := "중상", field := "교육" },
   { code := "EDU005", name := "교육 프로그램 기획자", growth := "중", field := "교육" }]

/-- Listing for field "법률/행정" (lines 452-458). -/
def jobs_law : List JobSummary :=
  [{ code := "LAW001", name := "변호사", growth := "중", field := "법률/행정" },
   { code := "LAW002", name := "변리사", growth := "중상", field := "법률/행정" },
   { code := "LAW003", name := "법무사", growth := "중", field := "법률/행정" },
   { code := "LAW004", name := "공인중개사", growth := "중", field := "법률/행정" },
   { code := "LAW005", name := "행정사", growth := "중", field := "법률/행정" }]

/-- Listing for field "의료/보건" (lines 459-466). -/
def jobs_med : List JobSummary :=
  [{ code := "MED001", name := "의사", growth := "중", field := "의료/보건" },
   { code := "MED002", name := "간호사", growth := "중상", field := "의료/보건" },
   { code := "MED003", name := "약사", growth := "중", field := "의료/보건" },
   { code := "MED004", name := "물리치료사", growth := "중상", field := "의료/보건" },
   { code := "MED005", name := "작업치료사", growth := "중", field := "의료/보건" },
   { code := "MED006", name := "임상병리사", growth := "중", field := "의료/보건" }]

/-- Listing for field "미디어/콘텐츠" (lines 467-473). -/
def jobs_mda : List JobSummary :=
  [{ code := "MDA001", name := "유튜버/크리에이터", growth := "높음", field := "미디어/콘텐츠" },
   { code := "MDA002", name := "PD", growth := "중", field := "미디어/콘텐츠" },
   { code := "MDA003", name := "방송작가", growth := "중", field := "미디어/콘텐츠" },
   { code := "MDA004", name := "카피라이터", growth := "중", field := "미디어/콘텐츠" },
   { code := "MDA005", name := "콘텐츠 기획자", growth := "높음", field := "미디어/콘텐츠" }]

/-- The `all_jobs` dict of `WorkNetAPI._get_sample_jobs_by_keyword`, as an
association list in source (insertion) order. -/
def all_jobs : List (String × List JobSummary) :=
  [("AI/빅데이터", jobs_ai), ("바이오헬스", jobs_bio), ("친환경에너지", jobs_eco),
   ("메타버스/XR", jobs_meta), ("자율주행/모빌리티", jobs_auto), ("로봇공학", jobs_rob),
   ("우주항공", jobs_space), ("스마트시티", jobs_city), ("경영/컨설팅", jobs_biz),
   ("심리/상담", jobs_psy), ("예술/디자인", jobs_art), ("체육/스포츠", jobs_spt),
   ("교육", jobs_edu), ("법률/행정", jobs_law), ("의료/보건", jobs_med),
   ("미디어/콘텐츠", jobs_mda)]

/-- Union of all field listings in catalog order: the `jobs` list built by the
`else` branch of the field filter (lines 480-482, `extend` over `all_jobs.values()`). -/
def allFieldsJobs : List JobSummary := (all_jobs.map (fun p => p.2)).flatten

/-- Candidate set selected by the field filter (lines 477-482): a recognized,
non-empty field name restricts to that field's listing; a missing, empty (falsy)
or unrecognized field name falls through to the union of all listings. -/
def candidateSet (field : Option String) : List JobSummary :=
  match field with
  | none => allFieldsJobs
  | some f =>
    if f = "" then allFieldsJobs
    else
      match all_jobs.find? (fun p => p.1 == f) with
      | some p => p.2
      | none => allFieldsJobs

/-- Model of `WorkNetAPI._get_sample_jobs_by_keyword` (lines 352-489): field
filtering then keyword filtering; an empty (falsy) keyword applies no filter, a
non-empty keyword keeps the jobs whose lowered name contains the lowered keyword. -/
def get_sample_jobs_by_keyword (keyword : String) (field : Option String) : List JobSummary :=
  let jobs := candidateSet field
  if keyword = "" then jobs
  else jobs.filter (fun job => pyContains (pyLower job.name) (pyLower keyword))

/-- Failure modes of the optional external (live) data source: the exception kinds
caught by the `try/except` blocks in `WorkNetAPI.get_job_info` and
`WorkNetAPI.search_jobs` (network error, non-success HTTP status raised by
`raise_for_status`, malformed JSON payload, timeout). -/
inductive ApiFailure where
  | network
  | httpStatus
  | malformed
  | timeout
deriving DecidableEq, Repr

/-- Model of `WorkNetAPI.get_job_info` (lines 25-52).  The external HTTP call is
modelled by the oracle `remote`; a falsy `api_key` (absent or empty string) skips it
entirely, and any failure of the call falls back to the sample data. -/
def get_job_info (api_key : Option String) (remote : String → Except ApiFailure Job)
    (job_code : String) : Option Job :=
  match api_key with
  | none => get_sample_job_data job_code
  | some k =>
    if k = "" then get_sample_job_data job_code
    else
      match remote job_code with
      | Except.ok data => some data
      | Except.error _ => get_sample_job_data job_code

/-- Model of `WorkNetAPI.search_jobs` (lines 54-83).  On success the response's
`jobs` list is returned as parsed; on any failure the sample keyword search is used
as fallback (with the same keyword and field). -/
def search_jobs (api_key : Option String)
    (remote : String → Except ApiFailure (List JobSummary))
    (keyword : String) (field : Option String) : List JobSummary :=
  match api_key with
  | none => get_sample_jobs_by_keyword keyword field
  | some k =>
    if k = "" then get_sample_jobs_by_keyword keyword field
    else
      match remote keyword with
      | Except.ok data => data
      | Except.error _ => get_sample_jobs_by_keyword keyword field

/-- Model of `CareerDataManager.get_job_details` (lines 543-553).
`CareerDataManager.__init__` constructs `WorkNetAPI()` without an api key, so the
call takes the sample branch; the remote oracle argument is irrelevant. -/
def get_job_details (job_code : String) : Option Job :=
  get_job_info none (fun _ => Except.error ApiFailure.network) job_code

/-- The `CareerDataManager._cache` dict: association list from industry-field name
to the cached listing; a dict store is modelled by prepending (the first match is
the most recent binding). -/
abbrev Cache := List (String × List JobSummary)

/-- Model of `CareerDataManager.get_industry_jobs` (lines 526-541), with the mutable
`self._cache` made an explicit state: returns the listing and the updated cache. -/
def get_industry_jobs (cache : Cache) (industry : String) : List JobSummary × Cache :=
  match cache.find? (fun p => p.1 == industry) with
  | some p => (p.2, cache)
  | none =>
    let jobs := get_sample_jobs_by_keyword "" (some industry)
    (jobs, (industry, jobs) :: cache)

/-- Model of `CareerDataManager.search_jobs_by_keyword` (lines 555-566): delegates
to `WorkNetAPI.search_jobs` on the manager's key-less `WorkNetAPI`, hence to the
sample keyword search. -/
def search_jobs_by_keyword (keyword : String) (field : Option String) : List JobSummary :=
  search_jobs none (fun _ => Except.error ApiFailure.network) keyword field

/-- One row of the comparison table built by `CareerDataManager.compare_jobs`
(lines 609-617).  The Korean dict keys are rendered as field names:
직업명 = job_name, 분야 = field, 학력요구 = required_education,
연봉범위 = salary_range, 전망 = outlook, 성장률 = growth_rate,
취업률 = employment_rate. -/
structure ComparisonRow where
  job_name : String
  field : String
  required_education : String
  salary_range : String
  outlook : String
  growth_rate : String
  employment_rate : String
deriving DecidableEq, Repr

/-- Row constructor used by the `compare_jobs` loop body. -/
def comparisonRow (job : Job) : ComparisonRow :=
  { job_name := job.job_name
    field := job.field
    required_education := job.required_education
    salary_range := job.salary_range
    outlook := job.outlook
    growth_rate := job.growth_rate
    employment_rate := job.employment_rate }

/-- Model of `CareerDataManager.compare_jobs` (lines 594-619): one row per code
that resolves to a (truthy) record, in input order; unresolved codes add no row. -/
def compare_jobs : List String → List ComparisonRow
  | [] => []
  | code :: rest =>
    match get_job_details code with
    | some job => comparisonRow job :: compare_jobs rest
    | none => compare_jobs rest

/-- Career-path projection built by `CareerDataManager.get_career_path_data`
(lines 640-646). -/
structure CareerPathData where
  job_name : String
  steps : List String
  high_school_subjects : List String
  related_majors : List String
  required_skills : List String
deriving DecidableEq, Repr

/-- Step parsing of line 638: `[step.strip() for step in path_str.split('→')]`. -/
def careerSteps (path_str : String) : List String :=
  (pySplit '→' path_str).map pyStrip

/-- Model of `CareerDataManager.get_career_path_data` (lines 621-646): `none` when
the code does not resolve; otherwise the projection with the parsed steps. -/
def get_career_path_data (job_code : String) : Option CareerPathData :=
  match get_job_details job_code with
  | none => none
  | some job =>
    some { job_name := job.job_name
           steps := careerSteps job.career_path
           high_school_subjects := job.high_school_subjects
           related_majors := job.related_majors
           required_skills := job.required_skills }

/-- Modelled from the spec (section 4.3 Contract B): parsing that splits on the
directional separator, trims each label, and additionally discards any resulting
empty strings.  The source code (line 638) performs no such discarding; this
definition exists to be compared against `careerSteps`. -/
def specParseSteps (s : String) : List String :=
  ((pySplit '→' s).map pyStrip).filter (fun t => t != "")

/-- Job record with a blank `career_path`, used as the concrete record exercising
the "blank or missing career_path" case of spec section 4.3 Contract B. -/
def blank_career_job : Job := { job_AI001 with career_path := "" }

/-- Splitting a character list never yields an empty list of pieces. -/
lemma splitChars_ne_nil (sep : Char) (l : List Char) : splitChars sep l ≠ [] := by
  cases l with
  | nil => simp [splitChars]
  | cons c rest =>
    simp only [splitChars]
    split
    · simp
    · split <;> simp

/-- Boolean list-prefix test agrees with an existential decomposition. -/
lemma isPrefixOf_iff_exists (n : List Char) : ∀ l : List Char,
    n.isPrefixOf l = true ↔ ∃ t, l = n ++ t := by
  induction n with
  | nil => intro l; simp [List.isPrefixOf]
  | cons a n ih =>
    intro l
    cases l with
    | nil => simp [List.isPrefixOf]
    | cons b l =>
      simp only [List.isPrefixOf, Bool.and_eq_true, beq_iff_eq, ih, List.cons_append,
        List.cons.injEq]
      constructor
      · rintro ⟨hab, t, ht⟩
        exact ⟨t, hab.symm, ht⟩
      · rintro ⟨t, hab, ht⟩
        exact ⟨hab.symm, t, ht⟩

/-- The Python substring test holds exactly when the needle occurs contiguously
inside the haystack. -/
lemma substrList_iff (n : List Char) : ∀ h : List Char,
    substrList n h = true ↔ ∃ s t, h = s ++ n ++ t := by
  intro h
  induction h with
  | nil =>
    simp only [substrList, List.isEmpty_iff]
    constructor
    · rintro rfl; exact ⟨[], [], rfl⟩
    · rintro ⟨s, t, ht⟩
      rcases List.append_eq_nil.mp (List.append_eq_nil.mp ht.symm).1 with ⟨-, h2⟩
      exact h2
  | cons c rest ih =>
    simp only [substrList, Bool.or_eq_true, isPrefixOf_iff_exists, ih]
    constructor
    · rintro (⟨t, ht⟩ | ⟨s, t, ht⟩)
      · exact ⟨[], t, by simp [ht]⟩
      · exact ⟨c :: s, t, by simp [ht]⟩
    · rintro ⟨s, t, ht⟩
      cases s with
      | nil => exact Or.inl ⟨t, by simpa using ht⟩
      | cons c' s' =>
        simp only [List.cons_append, List.cons.injEq] at ht
        exact Or.inr ⟨s', t, ht.2⟩

/-- Every record that a code can resolve to is an entry of the catalog list. -/
lemma get_sample_job_data_mem {code : String} {r : Job}
    (h : get_sample_job_data code = some r) : ∃ p ∈ sample_jobs, p.2 = r := by
  unfold get_sample_job_data at h
  rcases Option.map_eq_some'.mp h with ⟨p, hfind, hp⟩
  exact ⟨p, List.mem_of_find?_eq_some hfind, hp⟩

/-- On each of the seven catalog records the source parsing (split and trim, no
discarding) coincides with the spec parsing (which also discards empty labels),
because no record's career path produces an empty label. -/
lemma career_steps_catalog_agree :
    ∀ p ∈ sample_jobs, careerSteps p.2.career_path = specParseSteps p.2.career_path := by
  decide

/-- Claim C1 counterexample: for a record whose `career_path` is blank, the steps
computed by line 638 are `[""]` — one empty stage — not the empty sequence, and they
differ from the spec-described split-trim-discard parsing. -/
theorem career_path_blank_counterexample :
    blank_career_job.career_path = "" ∧
    careerSteps blank_career_job.career_path = [""] ∧
    specParseSteps blank_career_job.career_path = [] ∧
    careerSteps blank_career_job.career_path ≠ specParseSteps blank_career_job.career_path ∧
    careerSteps blank_career_job.career_path ≠ [] := by
  decide

/-- Claim C1 (amended): for every code that resolves to a record,
`get_career_path_data` computes the steps by splitting the record's `career_path` on
the directional separator and trimming each label — and, since no catalog record
yields an empty label, the result coincides with the spec's split-trim-discard
description on every actual record; but empty labels are not discarded in general:
a record with a blank (or missing, which `dict.get` defaults to blank) career path
yields the one-element sequence containing the empty string. -/
theorem career_path_parse_amended :
    (∀ code r, get_sample_job_data code = some r →
      ∃ d, get_career_path_data code = some d ∧
        d.steps = (pySplit '→' r.career_path).map pyStrip ∧
        d.steps = specParseSteps r.career_path) ∧
    (∀ j : Job, j.career_path = "" → careerSteps j.career_path = [""]) := by
  constructor
  · intro code r h
    have hdet : get_job_details code = some r := h
    refine ⟨{ job_name := r.job_name
              steps := careerSteps r.career_path
              high_school_subjects := r.high_school_subjects
              related_majors := r.related_majors
              required_skills := r.required_skills }, ?_, rfl, ?_⟩
    · simp [get_career_path_data, hdet]
    · show careerSteps r.career_path = specParseSteps r.career_path
      obtain ⟨p, hmem, hp⟩ := get_sample_job_data_mem h
      rw [← hp]
      exact career_steps_catalog_agree p hmem
  · intro j hj
    rw [hj]
    decide

/-- Claim C1 witness: the amended statement at the concrete code "AI001" and at the
concrete blank-path record. -/
theorem career_path_parse_amended_witness :
    (∃ d, get_career_path_data "AI001" = some d ∧
      d.steps = (pySplit '→' job_AI001.career_path).map pyStrip ∧
      d.steps = specParseSteps job_AI001.career_path) ∧
    careerSteps blank_career_job.career_path = [""] :=
  ⟨career_path_parse_amended.1 "AI001" job_AI001 (by decide),
   career_path_parse_amended.2 blank_career_job (by decide)⟩

/-- Claim C10: for every occupation code that resolves, the steps sequence returned
by `get_career_path_data` has length at least one — splitting never yields an empty
sequence — and a blank career path parses to the one-element sequence containing the
empty string. -/
theorem career_steps_never_empty :
    (∀ code, Option.all (fun d => decide (1 ≤ d.steps.length)) (get_career_path_data code)
      = true) ∧
    careerSteps "" = [""] := by
  constructor
  · intro code
    cases h : get_job_details code with
    | none => simp [get_career_path_data, h]
    | some job =>
      simp only [get_career_path_data, h, Option.all_some, decide_eq_true_eq]
      show 0 < (careerSteps job.career_path).length
      simp only [careerSteps, pySplit, List.length_map]
      exact List.length_pos.mpr (splitChars_ne_nil '→' job.career_path.data)
  · decide

/-- Claim C4: evaluating the code as written at the failing input.  The catalog's
dict literal closes before the "BIO001" entry, so "BIO001" does not resolve and
`compare_jobs(["AI001", "BIO001"])` produces a single row (for "AI001") instead of
the two rows the spec scenario requires. -/
theorem compare_jobs_bio001_missing :
    get_sample_job_data "BIO001" = none ∧
    compare_jobs ["AI001", "BIO001"] = [comparisonRow job_AI001] ∧
    (comparisonRow job_AI001).job_name = "AI 엔지니어" ∧
    (compare_jobs ["AI001", "BIO001"]).length = 1 := by
  decide

/-- Claim C3: an unknown code yields an explicit absent result from
`get_job_details` (never an error); `compare_jobs` emits exactly the rows of the
codes that resolve, in input order, silently skipping absent ones — in particular a
list of two known codes and one unknown code yields exactly the two known rows in
order. -/
theorem compare_skips_absent :
    (∀ code, sample_jobs.find? (fun p => p.1 == code) = none → get_job_details code = none) ∧
    (∀ codes : List String,
      compare_jobs codes = (codes.filterMap get_job_details).map comparisonRow) ∧
    (∀ c1 c2 u r1 r2, get_job_details c1 = some r1 → get_job_details c2 = some r2 →
      get_job_details u = none →
      compare_jobs [c1, c2, u] = [comparisonRow r1, comparisonRow r2]) := by
  refine ⟨?_, ?_, ?_⟩
  · intro code h
    show (sample_jobs.find? (fun p => p.1 == code)).map (fun p => p.2) = none
    rw [h]
    rfl
  · intro codes
    induction codes with
    | nil => rfl
    | cons c rest ih =>
      simp only [compare_jobs, List.filterMap_cons]
      cases h : get_job_details c <;> simp [h, ih]
  · intro c1 c2 u r1 r2 h1 h2 h3
    simp [compare_jobs, h1, h2, h3]

/-- Claim C3 witness: the skipping behaviour at the concrete codes "AI001",
"BIZ001" and the unknown code "ZZZ". -/
theorem compare_skips_absent_witness :
    get_job_details "ZZZ" = none ∧
    compare_jobs ["AI001", "BIZ001", "ZZZ"] =
      [comparisonRow job_AI001, comparisonRow job_BIZ001] :=
  ⟨compare_skips_absent.1 "ZZZ" (by decide),
   compare_skips_absent.2.2 "AI001" "BIZ001" "ZZZ" job_AI001 job_BIZ001
     (by decide) (by decide) (by decide)⟩

/-- Claim C2 counterexample: on the unrecognized field name "XYZ",
`get_industry_jobs` returns the union of all field listings (86 summaries), not the
empty sequence the claim states. -/
theorem get_industry_jobs_unknown_counterexample :
    (get_industry_jobs [] "XYZ").1 ≠ [] ∧
    (get_industry_jobs [] "XYZ").1 = allFieldsJobs ∧
    (get_industry_jobs [] "XYZ").1.length = 86 := by
  decide

/-- Claim C2 (amended): for every field name that is not one of the catalog's
enumerated field names (and not already cached), `get_industry_jobs` does not fail:
it returns the union of all fields' listings in catalog order, and caches it under
that field name. -/
theorem get_industry_jobs_unknown_amended :
    ∀ (cache : Cache) (f : String),
      cache.find? (fun p => p.1 == f) = none →
      all_jobs.find? (fun p => p.1 == f) = none →
      get_industry_jobs cache f = (allFieldsJobs, (f, allFieldsJobs) :: cache) := by
  intro cache f hc hf
  simp only [get_industry_jobs, hc]
  simp [get_sample_jobs_by_keyword, candidateSet, hf, ite_self]

/-- Claim C2 witness: the amended statement at the empty cache and the concrete
unrecognized field name "XYZ". -/
theorem get_industry_jobs_unknown_amended_witness :
    get_industry_jobs [] "XYZ" = (allFieldsJobs, [("XYZ", allFieldsJobs)]) :=
  get_industry_jobs_unknown_amended [] "XYZ" (by decide) (by decide)

/-- Claim C5 counterexample: a whitespace-only keyword does not return the full
candidate set — `if keyword:` is true for a non-empty blank string, so " " is used
as a substring filter (59 of the 86 names contain a space). -/
theorem search_blank_keyword_counterexample :
    get_sample_jobs_by_keyword " " none ≠ allFieldsJobs ∧
    get_sample_jobs_by_keyword "" none = allFieldsJobs ∧
    (get_sample_jobs_by_keyword " " none).length = 59 := by
  decide

/-- Claim C5 (amended): only the genuinely empty keyword returns the full candidate
set unfiltered — the field's listing when a non-empty recognized field is given,
otherwise the union of all fields' listings in catalog order; a whitespace-only
keyword is instead treated as an ordinary search keyword and applied as a substring
filter. -/
theorem search_empty_keyword_amended :
    (∀ f p, f ≠ "" → all_jobs.find? (fun q => q.1 == f) = some p →
      get_sample_jobs_by_keyword "" (some f) = p.2) ∧
    (∀ f, all_jobs.find? (fun q => q.1 == f) = none →
      get_sample_jobs_by_keyword "" (some f) = allFieldsJobs) ∧
    get_sample_jobs_by_keyword "" none = allFieldsJobs ∧
    get_sample_jobs_by_keyword " " none =
      allFieldsJobs.filter (fun j => pyContains (pyLower j.name) (pyLower " ")) := by
  refine ⟨?_, ?_, rfl, rfl⟩
  · intro f p hf hp
    simp [get_sample_jobs_by_keyword, candidateSet, hp, hf]
  · intro f hf
    simp [get_sample_jobs_by_keyword, candidateSet, hf, ite_self]

/-- Claim C5 witness: the amended statement at the concrete recognized field
"바이오헬스" and the concrete unrecognized field "XYZ". -/
theorem search_empty_keyword_amended_witness :
    get_sample_jobs_by_keyword "" (some "바이오헬스") = jobs_bio ∧
    get_sample_jobs_by_keyword "" (some "XYZ") = allFieldsJobs :=
  ⟨search_empty_keyword_amended.1 "바이오헬스" ("바이오헬스", jobs_bio)
     (by decide) (by decide),
   search_empty_keyword_amended.2.1 "XYZ" (by decide)⟩

/-- Claim C6: for every non-blank keyword, the search returns exactly the
candidates whose lowered name contains the lowered keyword — a stable filter over
the candidate set — where the Boolean matcher is exactly contiguous-substring
occurrence; consequently searching "ai" and "AI" yield identical results, and a
keyword matching no candidate name yields the empty sequence. -/
theorem search_keyword_filter :
    (∀ kw f, pyStrip kw ≠ "" →
      get_sample_jobs_by_keyword kw f =
        (candidateSet f).filter (fun j => substrList (pyLower kw).data (pyLower j.name).data)) ∧
    (∀ kw (j : JobSummary), substrList (pyLower kw).data (pyLower j.name).data = true ↔
      ∃ s t, (pyLower j.name).data = s ++ (pyLower kw).data ++ t) ∧
    (∀ f, get_sample_jobs_by_keyword "ai" f = get_sample_jobs_by_keyword "AI" f) ∧
    (∀ kw f, pyStrip kw ≠ "" →
      (∀ j ∈ candidateSet f, substrList (pyLower kw).data (pyLower j.name).data = false) →
      get_sample_jobs_by_keyword kw f = []) := by
  have hblank : ∀ kw : String, pyStrip kw ≠ "" → kw ≠ "" := by
    intro kw h e
    exact h (by rw [e]; rfl)
  refine ⟨?_, ?_, ?_, ?_⟩
  · intro kw f h
    simp only [get_sample_jobs_by_keyword, if_neg (hblank kw h)]
    rfl
  · intro kw j
    exact substrList_iff _ _
  · intro f
    have h : pyLower "ai" = pyLower "AI" := by decide
    simp only [get_sample_jobs_by_keyword,
      if_neg (by decide : ¬("ai" = "")), if_neg (by decide : ¬("AI" = ""))]
    simp only [h]
  · intro kw f h hall
    simp only [get_sample_jobs_by_keyword, if_neg (hblank kw h)]
    rw [List.filter_eq_nil_iff]
    intro j hj
    show ¬pyContains (pyLower j.name) (pyLower kw) = true
    show ¬substrList (pyLower kw).data (pyLower j.name).data = true
    rw [hall j hj]
    simp

/-- Claim C6 witness: the filter characterization applied at the concrete keyword
"ai", and the empty result at the concrete keyword "zzz" which matches no name. -/
theorem search_keyword_filter_witness :
    get_sample_jobs_by_keyword "ai" none =
      (candidateSet none).filter
        (fun j => substrList (pyLower "ai").data (pyLower j.name).data) ∧
    get_sample_jobs_by_keyword "zzz" none = [] :=
  ⟨search_keyword_filter.1 "ai" none (by decide),
   search_keyword_filter.2.2.2 "zzz" none (by decide) (by decide)⟩

/-- Claim C7: the sample-backed search and comparison are pure functions of their
arguments (calling twice yields identical results), and `get_industry_jobs`
memoizes per field name: after one call the cache maps the field name to that
call's result, and a repeated call returns exactly the same result and leaves the
cache unchanged — hence every call after the first returns the cached value. -/
theorem search_compare_idempotent_memoized :
    ∀ (cache : Cache) (industry keyword : String) (f : Option String)
      (codes : List String),
      get_industry_jobs (get_industry_jobs cache industry).2 industry =
        get_industry_jobs cache industry ∧
      (get_industry_jobs cache industry).2.find? (fun p => p.1 == industry) =
        some (industry, (get_industry_jobs cache industry).1) ∧
      search_jobs_by_keyword keyword f = search_jobs_by_keyword keyword f ∧
      compare_jobs codes = compare_jobs codes := by
  intro cache industry keyword f codes
  refine ⟨?_, ?_, rfl, rfl⟩
  · cases hc : cache.find? (fun p => p.1 == industry) with
    | none => simp [get_industry_jobs, hc]
    | some p => simp [get_industry_jobs, hc]
  · cases hc : cache.find? (fun p => p.1 == industry) with
    | none => simp [get_industry_jobs, hc]
    | some p =>
      have hp : p.1 = industry := by
        have := List.find?_some hc
        simpa using this
      simp only [get_industry_jobs, hc]
      rw [← hp]

/-- Claim C8: with a live-data credential configured, every failure of the external
call (network error, non-success HTTP status, malformed response, timeout — the
constructors of `ApiFailure`) makes `get_job_info` and `search_jobs` fall back to
the static sample data for the same code or keyword, and no failure is ever
propagated to the caller. -/
theorem live_failure_fallback :
    ∀ (k : String) (remoteJob : String → Except ApiFailure Job)
      (remoteSearch : String → Except ApiFailure (List JobSummary))
      (job_code keyword : String) (f : Option String) (e1 e2 : ApiFailure),
      remoteJob job_code = Except.error e1 →
      remoteSearch keyword = Except.error e2 →
      get_job_info (some k) remoteJob job_code = get_sample_job_data job_code ∧
      search_jobs (some k) remoteSearch keyword f = get_sample_jobs_by_keyword keyword f := by
  intro k rj rs code kw f e1 e2 h1 h2
  constructor
  · simp only [get_job_info]
    split
    · rfl
    · rw [h1]
  · simp only [search_jobs]
    split
    · rfl
    · rw [h2]

/-- Claim C8 witness: the fallback at the concrete key "KEY123", code "AI001" and
keyword "ai", with external calls failing by timeout and network error. -/
theorem live_failure_fallback_witness :
    get_job_info (some "KEY123") (fun _ => Except.error ApiFailure.timeout) "AI001" =
      get_sample_job_data "AI001" ∧
    search_jobs (some "KEY123") (fun _ => Except.error ApiFailure.network) "ai" none =
      get_sample_jobs_by_keyword "ai" none :=
  live_failure_fallback "KEY123" (fun _ => Except.error ApiFailure.timeout)
    (fun _ => Except.error ApiFailure.network) "AI001" "ai" none
    ApiFailure.timeout ApiFailure.network rfl rfl

/-- Claim C9: the code "AI002" appears in the field listing (via
`get_industry_jobs` and via keyword search) but resolves to no detail record:
`get_job_details` returns absent, comparison of it yields no row, and its career
path projection is absent — selecting it for details silently produces no result. -/
theorem listed_code_without_details :
    (get_industry_jobs [] "AI/빅데이터").1.any (fun j => j.code == "AI002") = true ∧
    (search_jobs_by_keyword "데이터" none).any (fun j => j.code == "AI002") = true ∧
    get_job_details "AI002" = none ∧
    compare_jobs ["AI002"] = [] ∧
    get_career_path_data "AI002" = none := by
  decide
